import Mathlib

/-!
Verification of the OMLT repository spec against a shallow embedding of its
source. The embedding covers:
  - `src/omlt/gbt/model.py` (`GradientBoostedTreeModel`, `_model_num_inputs`,
    `_model_num_outputs`, `_tensor_size`), translated directly from the source;
  - the `OmltBlock` container and the `OmltConstraint` facade of `omlt.base`,
    whose source files are not in the excerpt (only their tests are), modelled
    from the spec's contracts.
Python exceptions become `Except` results; ONNX protobuf tensors become plain
structures with optional integer dimension values.
-/

namespace OMLT

/-- A dimension of an ONNX tensor shape: `dim_value` may be absent (`None`). -/
structure Dim where
  dim_value : Option Int
deriving DecidableEq

/-- The `shape` field of an ONNX tensor type: a list of dimensions. -/
structure TensorShape where
  dim : List Dim
deriving DecidableEq

/-- The `tensor_type` field of an ONNX type proto. -/
structure TensorType where
  shape : TensorShape
deriving DecidableEq

/-- The `type` field of an ONNX value info (tensor declaration). -/
structure TypeProto where
  tensor_type : TensorType
deriving DecidableEq

/-- An ONNX tensor declaration as read by `_tensor_size`. -/
structure Tensor where
  type : TypeProto
deriving DecidableEq

/-- The `graph` field of an ONNX model: its declared input and output tensors. -/
structure Graph where
  input : List Tensor
  output : List Tensor
deriving DecidableEq

/-- An ONNX model object as read by `gbt/model.py`. -/
structure OnnxModel where
  graph : Graph
deriving DecidableEq

/-- The positive dimension values of a tensor, in order: the list comprehension
`[dim.dim_value for dim in tensor_type.shape.dim if dim.dim_value is not None
and dim.dim_value > 0]` in `_tensor_size`. -/
def dim_values_of (tensor : Tensor) : List Int :=
  tensor.type.tensor_type.shape.dim.filterMap fun d =>
    match d.dim_value with
    | some v => if 0 < v then some v else none
    | none => none

/-- The `ValueError`s raised by `gbt/model.py`, each carrying the offending
value interpolated into the corresponding message. -/
inductive GbtError where
  | multiInput (inputs : List Tensor)
  | multiOutput (outputs : List Tensor)
  | noPositiveDims (t : Tensor)
  | multiplePositiveDims (t : Tensor)
deriving DecidableEq

/-- Rendering of a dimension, standing in for the protobuf text format used by
the f-string interpolation in the error messages. -/
def reprDim (d : Dim) : String :=
  match d.dim_value with
  | some v => "dim_value: " ++ toString v
  | none => "dim_value: None"

/-- Rendering of a list of dimensions. -/
def reprDimList : List Dim → String
  | [] => ""
  | [d] => reprDim d
  | d :: rest => reprDim d ++ ", " ++ reprDimList rest

/-- Rendering of a tensor declaration. -/
def reprTensor (t : Tensor) : String :=
  "tensor \x7b dim: [" ++ reprDimList t.type.tensor_type.shape.dim ++ "] \x7d"

/-- Rendering of a list of tensors. -/
def reprTensorList : List Tensor → String
  | [] => ""
  | [t] => reprTensor t
  | t :: rest => reprTensor t ++ ", " ++ reprTensorList rest

/-- The message text of each `ValueError` in `gbt/model.py`. -/
def GbtError.message : GbtError → String
  | .multiInput l =>
      "Model graph input field is multi-valued " ++ reprTensorList l
        ++ ". A single value is required."
  | .multiOutput l =>
      "Model graph output field is multi-valued " ++ reprTensorList l
        ++ ". A single value is required."
  | .noPositiveDims t =>
      "Tensor " ++ reprTensor t ++ " has no positive dimensions."
  | .multiplePositiveDims t =>
      "Tensor " ++ reprTensor t ++ " has multiple positive dimensions."

/-- Rendering of the offending value an error carries: the multi-valued graph
field for the arity errors, the offending tensor for the dimension errors. -/
def GbtError.offendingRepr : GbtError → String
  | .multiInput l => reprTensorList l
  | .multiOutput l => reprTensorList l
  | .noPositiveDims t => reprTensor t
  | .multiplePositiveDims t => reprTensor t

/-- `_tensor_size(tensor)`: returns the single positive dimension value, or
raises if there are zero or several. -/
def tensor_size (tensor : Tensor) : Except GbtError Int :=
  match dim_values_of tensor with
  | [v] => .ok v
  | [] => .error (.noPositiveDims tensor)
  | _ :: _ :: _ => .error (.multiplePositiveDims tensor)

/-- `_model_num_inputs(model)`: requires exactly one graph input tensor, then
returns its size. -/
def model_num_inputs (model : OnnxModel) : Except GbtError Int :=
  match model.graph.input with
  | [t] => tensor_size t
  | l => .error (.multiInput l)

/-- `_model_num_outputs(model)`: requires exactly one graph output tensor, then
returns its size. -/
def model_num_outputs (model : OnnxModel) : Except GbtError Int :=
  match model.graph.output with
  | [t] => tensor_size t
  | l => .error (.multiOutput l)

/-- The state of a constructed `GradientBoostedTreeModel`, with the scaling
object and bound dictionary kept abstract (types `S` and `B`). Each field is
read back by the property of the same name. -/
structure GradientBoostedTreeModel (S B : Type) where
  onnx_model : OnnxModel
  n_inputs : Int
  n_outputs : Int
  scaling_object : Option S
  scaled_input_bounds : Option B
deriving DecidableEq

/-- `GradientBoostedTreeModel.__init__`: computes the input arity, then the
output arity (each may raise), then stores all five attributes. -/
def GradientBoostedTreeModel.init (onnx_model : OnnxModel)
    (scaling_object : Option S) (scaled_input_bounds : Option B) :
    Except GbtError (GradientBoostedTreeModel S B) :=
  match model_num_inputs onnx_model with
  | .error e => .error e
  | .ok ni =>
    match model_num_outputs onnx_model with
    | .error e => .error e
    | .ok no => .ok ⟨onnx_model, ni, no, scaling_object, scaled_input_bounds⟩

/-- The `scaling_object` property setter: replaces the scaling object, leaving
every other attribute untouched. -/
def GradientBoostedTreeModel.setScalingObject (m : GradientBoostedTreeModel S B)
    (s : Option S) : GradientBoostedTreeModel S B :=
  { m with scaling_object := s }

/-- The condition under which the spec says construction must fail: a number of
input or output tensors different from one, or a single input/output tensor
whose number of positive dimensions is different from one. -/
def specInitRejects (m : OnnxModel) : Prop :=
  m.graph.input.length ≠ 1 ∨ m.graph.output.length ≠ 1 ∨
    (∃ t, m.graph.input = [t] ∧ (dim_values_of t).length ≠ 1) ∨
    (∃ t, m.graph.output = [t] ∧ (dim_values_of t).length ≠ 1)

/-- Modelled from the spec: the source of `omlt/block.py` (`OmltBlockData`) is
not in the excerpt, only its tests are. Per the spec, a formulation object
supplies its own `input_indexes` / `output_indexes` collections (its lifecycle
hooks populate constraints and are irrelevant to the claims, so they are
elided). -/
structure Formulation (ι κ : Type) where
  input_indexes : List ι
  output_indexes : List κ
deriving DecidableEq

/-- Modelled from the spec: the descriptive errors raised by a block when
attaching a formulation, each naming the offending formulation instance. -/
inductive BlockError (ι κ : Type) where
  | noInputs (f : Formulation ι κ)
  | noOutputs (f : Formulation ι κ)
  | alreadyAttached (f : Formulation ι κ)
deriving DecidableEq

/-- The formulation instance an attachment error names. -/
def BlockError.offendingFormulation : BlockError ι κ → Formulation ι κ
  | .noInputs f => f
  | .noOutputs f => f
  | .alreadyAttached f => f

/-- The message text of each attachment error, given a rendering `fr` of
formulation instances (Python renders the instance with `str`). The first two
messages are fixed by the tests in `tests/base/test_block.py`. -/
def BlockError.message (fr : Formulation ι κ → String) : BlockError ι κ → String
  | .noInputs f =>
      "OmltBlock must have at least one input to build a formulation. "
        ++ fr f ++ " has no inputs."
  | .noOutputs f =>
      "OmltBlock must have at least one output to build a formulation. "
        ++ fr f ++ " has no outputs."
  | .alreadyAttached f =>
      "OmltBlock already has a formulation attached. " ++ fr f
        ++ " cannot be attached."

/-- Modelled from the spec: an `OmltBlockData` holds an ordered mapping of
input symbols and output symbols to modeling variables plus at most one
attached formulation; the claims concern only the ordered symbol collections,
so the variables themselves are elided. -/
structure OmltBlockData (ι κ : Type) where
  inputs : List ι
  outputs : List κ
  formulation : Option (Formulation ι κ)
deriving DecidableEq

/-- Modelled from the spec: a freshly declared block has no inputs, outputs or
formulation. -/
def OmltBlockData.new : OmltBlockData ι κ := ⟨[], [], none⟩

/-- Modelled from the spec: `_setup_inputs_outputs` records the given index
collections in order, auto-deriving a variable for each index. -/
def OmltBlockData.setup_inputs_outputs (b : OmltBlockData ι κ)
    (input_indexes : List ι) (output_indexes : List κ) : OmltBlockData ι κ :=
  { b with inputs := input_indexes, outputs := output_indexes }

/-- Modelled from the spec: `build_formulation` rejects a formulation with
empty input indexes, then one with empty output indexes (the order of the two
checks follows the error messages in `tests/base/test_block.py`), then a second
attachment; otherwise it records the formulation and sets up the block's
inputs and outputs from the formulation's index collections. -/
def OmltBlockData.build_formulation (b : OmltBlockData ι κ)
    (f : Formulation ι κ) : Except (BlockError ι κ) (OmltBlockData ι κ) :=
  match f.input_indexes, f.output_indexes, b.formulation with
  | [], _, _ => .error (.noInputs f)
  | _ :: _, [], _ => .error (.noOutputs f)
  | _ :: _, _ :: _, some _ => .error (.alreadyAttached f)
  | _ :: _, _ :: _, none => .ok ⟨f.input_indexes, f.output_indexes, some f⟩

/-- Modelled from the spec: the source of `omlt/base` (variables, expressions
and constraints) is not in the excerpt, only its tests are. An `OmltScalar`
variable carries its current value (`v.value` in the tests); domains are
elided since evaluation in the tests is integer arithmetic on values. -/
structure OmltScalar where
  value : Int
deriving DecidableEq

/-- Modelled from the spec: an expression of the facade, built by arithmetic
composition from variables and constants (`v1 + CONST_VALUE` in the tests). -/
inductive OmltExpr where
  | evar (v : OmltScalar)
  | econst (c : Int)
  | eadd (a b : OmltExpr)
deriving DecidableEq

/-- Evaluation of an expression under the current variable values. -/
def OmltExpr.eval : OmltExpr → Int
  | .evar v => v.value
  | .econst c => c
  | .eadd a b => a.eval + b.eval

/-- Modelled from the spec: the right-hand side of a comparison is another
expression, a bare variable, or a numeric constant. -/
inductive ConstraintRhs where
  | rexpr (e : OmltExpr)
  | rvar (v : OmltScalar)
  | rconst (c : Int)
deriving DecidableEq

/-- Modelled from the spec: a scalar constraint pairs the left-hand
expression, a comparison sense, and the right-hand side. -/
structure OmltConstraintScalarData where
  lhs : OmltExpr
  sense : String
  rhs : ConstraintRhs
deriving DecidableEq

/-- Modelled from the spec: the `==` comparison operator on an expression,
normalizing the left-hand side to the original expression. -/
def OmltExpr.eqC (e : OmltExpr) (r : ConstraintRhs) : OmltConstraintScalarData :=
  ⟨e, "==", r⟩

/-- Modelled from the spec: the `<=` comparison operator on an expression. -/
def OmltExpr.leC (e : OmltExpr) (r : ConstraintRhs) : OmltConstraintScalarData :=
  ⟨e, "<=", r⟩

/-- Modelled from the spec: the `>=` comparison operator on an expression. -/
def OmltExpr.geC (e : OmltExpr) (r : ConstraintRhs) : OmltConstraintScalarData :=
  ⟨e, ">=", r⟩

/-- Modelled from the spec and `tests/base/test_constraint.py`: calling a
constraint evaluates it under the current variable values: the difference of
the two sides when the right-hand side is an expression or a variable, and the
left-hand side's value alone when it is a numeric constant. -/
def OmltConstraintScalarData.call (c : OmltConstraintScalarData) : Int :=
  match c.rhs with
  | .rexpr e => c.lhs.eval - e.eval
  | .rvar v => c.lhs.eval - v.value
  | .rconst _ => c.lhs.eval

/-- The two backing modeling languages supported by the facade. -/
inductive OmltLang where
  | pyomo
  | jump
deriving DecidableEq

/-- Modelled from the spec: the fixed error message rejecting an unrecognized
backing-language name, enumerating the two supported formats. -/
def langErrorMessage (lang : String) : String :=
  "Constraint format " ++ lang
    ++ " not recognized. Supported formats are \x27pyomo\x27 or \x27jump\x27."

/-- Modelled from the spec: resolution of a backing-language name, shared by
the scalar and the indexed constraint constructors. -/
def parseLang (lang : String) : Except String OmltLang :=
  if lang = "pyomo" then .ok .pyomo
  else if lang = "jump" then .ok .jump
  else .error (langErrorMessage lang)

/-- Modelled from the spec: the scalar constraint facade variant, carrying the
backing language chosen at construction time. -/
structure OmltConstraintScalar where
  lang : OmltLang
deriving DecidableEq

/-- Modelled from the spec: the indexed constraint facade variant: backing
language, index set, and the constraints assigned so far. -/
structure OmltConstraintIndexed where
  lang : OmltLang
  index_set : List Int
  cons : List (Int × OmltConstraintScalarData)
deriving DecidableEq

/-- Modelled from the spec: constructing the scalar constraint variant
validates the backing-language name. -/
def makeOmltConstraintScalar (lang : String) :
    Except String OmltConstraintScalar :=
  match parseLang lang with
  | .ok l => .ok ⟨l⟩
  | .error msg => .error msg

/-- Modelled from the spec: constructing the indexed constraint variant over an
index set validates the backing-language name. -/
def makeOmltConstraintIndexed (index_set : List Int) (lang : String) :
    Except String OmltConstraintIndexed :=
  match parseLang lang with
  | .ok l => .ok ⟨l, index_set, []⟩
  | .error msg => .error msg

/-- Modelled from the spec: the lookup error raised by an indexed constraint
container, naming the missing index and the valid index set. -/
inductive IndexLookupError where
  | missing (idx : Int) (index_set : List Int)
deriving DecidableEq

/-- Rendering of an integer index set for the lookup error message. -/
def reprIntList : List Int → String
  | [] => ""
  | [v] => toString v
  | v :: rest => toString v ++ ", " ++ reprIntList rest

/-- Modelled from the spec: the lookup error message, naming the missing index
and the valid index set. -/
def IndexLookupError.message : IndexLookupError → String
  | .missing idx s =>
      "Couldn\x27t find index " ++ toString idx ++ " in index set \x7b"
        ++ reprIntList s ++ "\x7d."

/-- Modelled from the spec: assigning a constraint at an index of the indexed
container fails with a lookup error when the index is outside the index set. -/
def OmltConstraintIndexed.setItem (c : OmltConstraintIndexed) (idx : Int)
    (v : OmltConstraintScalarData) :
    Except IndexLookupError OmltConstraintIndexed :=
  if idx ∈ c.index_set then .ok ⟨c.lang, c.index_set, c.cons ++ [(idx, v)]⟩
  else .error (.missing idx c.index_set)

/-- Modelled from the spec: reading the indexed container at an index fails
with a lookup error when the index is outside the index set. -/
def OmltConstraintIndexed.getItem (c : OmltConstraintIndexed) (idx : Int) :
    Except IndexLookupError (Option OmltConstraintScalarData) :=
  if idx ∈ c.index_set then .ok (c.cons.lookup idx)
  else .error (.missing idx c.index_set)

theorem tensor_size_ok_of_single (t : Tensor) (a : Int)
    (h : dim_values_of t = [a]) : tensor_size t = .ok a := by
  simp [tensor_size, h]

theorem tensor_size_error_iff (t : Tensor) :
    (∃ e, tensor_size t = .error e) ↔ (dim_values_of t).length ≠ 1 := by
  rcases h : dim_values_of t with _ | ⟨a, _ | ⟨b, l⟩⟩ <;> simp [tensor_size, h]

theorem model_num_inputs_error_iff (m : OnnxModel) :
    (∃ e, model_num_inputs m = .error e) ↔
      (m.graph.input.length ≠ 1 ∨
        ∃ t, m.graph.input = [t] ∧ (dim_values_of t).length ≠ 1) := by
  rcases h : m.graph.input with _ | ⟨t, _ | ⟨t2, l⟩⟩ <;>
    simp [model_num_inputs, h]
  exact tensor_size_error_iff t

theorem model_num_outputs_error_iff (m : OnnxModel) :
    (∃ e, model_num_outputs m = .error e) ↔
      (m.graph.output.length ≠ 1 ∨
        ∃ t, m.graph.output = [t] ∧ (dim_values_of t).length ≠ 1) := by
  rcases h : m.graph.output with _ | ⟨t, _ | ⟨t2, l⟩⟩ <;>
    simp [model_num_outputs, h]
  exact tensor_size_error_iff t

/-- C1: for a model whose graph declares exactly one input and one output
tensor, each with exactly one positive-valued dimension, construction of the
`GradientBoostedTreeModel` wrapper succeeds, and `n_inputs` (resp. `n_outputs`)
equals the single positive dimension value of the input (resp. output)
tensor. -/
theorem claim_C1 {S B : Type} (m : OnnxModel) (tin tout : Tensor) (a b : Int)
    (so : Option S) (bd : Option B)
    (hin : m.graph.input = [tin]) (hout : m.graph.output = [tout])
    (ha : dim_values_of tin = [a]) (hb : dim_values_of tout = [b]) :
    ∃ w, GradientBoostedTreeModel.init m so bd = .ok w ∧
      w.n_inputs = a ∧ w.n_outputs = b := by
  refine ⟨⟨m, a, b, so, bd⟩, ?_, rfl, rfl⟩
  simp [GradientBoostedTreeModel.init, model_num_inputs, model_num_outputs,
    hin, hout, tensor_size, ha, hb]

/-- A tensor with one zero dimension followed by one positive dimension of
value 3, as produced for a `(batch, 3)` input declaration. -/
def tinEx : Tensor := ⟨⟨⟨⟨[⟨some 0⟩, ⟨some 3⟩]⟩⟩⟩⟩

/-- A tensor with one zero dimension followed by one positive dimension of
value 2. -/
def toutEx : Tensor := ⟨⟨⟨⟨[⟨some 0⟩, ⟨some 2⟩]⟩⟩⟩⟩

/-- A well-formed model: one input tensor of size 3, one output tensor of
size 2. -/
def okModelEx : OnnxModel := ⟨⟨[tinEx], [toutEx]⟩⟩

theorem claim_C1_witness :
    ∃ w : GradientBoostedTreeModel Unit Unit,
      GradientBoostedTreeModel.init okModelEx none none = .ok w ∧
        w.n_inputs = 3 ∧ w.n_outputs = 2 :=
  claim_C1 okModelEx tinEx toutEx 3 2 none none rfl rfl (by decide) (by decide)

/-- C2: construction of the wrapper raises a `ValueError` if and only if the
number of graph input tensors differs from one, or the number of graph output
tensors differs from one, or the single input or output tensor has a number of
positive-valued dimensions different from one; and every such error's message
includes the offending value (the multi-valued graph field or the offending
tensor). -/
theorem claim_C2 {S B : Type} (m : OnnxModel) (so : Option S) (bd : Option B) :
    ((∃ e, GradientBoostedTreeModel.init m so bd = .error e) ↔
      specInitRejects m) ∧
    (∀ e, GradientBoostedTreeModel.init m so bd = Except.error e →
      ∃ s1 s2, e.message = s1 ++ e.offendingRepr ++ s2) := by
  constructor
  · constructor
    · rintro ⟨e, he⟩
      unfold specInitRejects
      cases h1 : model_num_inputs m with
      | error e1 =>
          rcases (model_num_inputs_error_iff m).mp ⟨e1, h1⟩ with h | h
          · exact Or.inl h
          · exact Or.inr (Or.inr (Or.inl h))
      | ok ni =>
          cases h2 : model_num_outputs m with
          | error e2 =>
              rcases (model_num_outputs_error_iff m).mp ⟨e2, h2⟩ with h | h
              · exact Or.inr (Or.inl h)
              · exact Or.inr (Or.inr (Or.inr h))
          | ok no =>
              simp [GradientBoostedTreeModel.init, h1, h2] at he
    · intro hcond
      cases h1 : model_num_inputs m with
      | error e1 => exact ⟨e1, by simp [GradientBoostedTreeModel.init, h1]⟩
      | ok ni =>
          cases h2 : model_num_outputs m with
          | error e2 => exact ⟨e2, by simp [GradientBoostedTreeModel.init, h1, h2]⟩
          | ok no =>
              exfalso
              rcases hcond with h | h | h | h
              · rcases (model_num_inputs_error_iff m).mpr (Or.inl h) with ⟨e, he⟩
                rw [h1] at he
                exact Except.noConfusion he
              · rcases (model_num_outputs_error_iff m).mpr (Or.inl h) with ⟨e, he⟩
                rw [h2] at he
                exact Except.noConfusion he
              · rcases (model_num_inputs_error_iff m).mpr (Or.inr h) with ⟨e, he⟩
                rw [h1] at he
                exact Except.noConfusion he
              · rcases (model_num_outputs_error_iff m).mpr (Or.inr h) with ⟨e, he⟩
                rw [h2] at he
                exact Except.noConfusion he
  · intro e _
    cases e <;> exact ⟨_, _, rfl⟩

/-- A malformed model: it declares no input tensor. -/
def badModelEx : OnnxModel := ⟨⟨[], [toutEx]⟩⟩

theorem claim_C2_witness :
    ∃ e, GradientBoostedTreeModel.init badModelEx (none : Option Unit)
      (none : Option Unit) = .error e :=
  (claim_C2 badModelEx none none).1.mpr (Or.inl (by decide))

/-- C9: after assigning a new scaling object through the setter, the
`scaling_object` property returns exactly the new value, while `onnx_model`,
`n_inputs`, `n_outputs` and `scaled_input_bounds` keep the values they had at
construction. -/
theorem claim_C9 {S B : Type} (m : OnnxModel) (so so2 : Option S)
    (bd : Option B) (w : GradientBoostedTreeModel S B)
    (h : GradientBoostedTreeModel.init m so bd = .ok w) :
    (w.setScalingObject so2).scaling_object = so2 ∧
    (w.setScalingObject so2).onnx_model = m ∧
    (w.setScalingObject so2).n_inputs = w.n_inputs ∧
    (w.setScalingObject so2).n_outputs = w.n_outputs ∧
    (w.setScalingObject so2).scaled_input_bounds = bd := by
  cases h1 : model_num_inputs m with
  | error e1 => simp [GradientBoostedTreeModel.init, h1] at h
  | ok ni =>
    cases h2 : model_num_outputs m with
    | error e2 => simp [GradientBoostedTreeModel.init, h1, h2] at h
    | ok no =>
        simp only [GradientBoostedTreeModel.init, h1, h2, Except.ok.injEq] at h
        subst h
        exact ⟨rfl, rfl, rfl, rfl, rfl⟩

theorem claim_C9_witness :
    ∃ w : GradientBoostedTreeModel Nat Unit,
      GradientBoostedTreeModel.init okModelEx (some 7) none = .ok w ∧
        (w.setScalingObject (some 9)).scaling_object = some 9 ∧
        (w.setScalingObject (some 9)).onnx_model = okModelEx ∧
        (w.setScalingObject (some 9)).n_inputs = w.n_inputs ∧
        (w.setScalingObject (some 9)).n_outputs = w.n_outputs ∧
        (w.setScalingObject (some 9)).scaled_input_bounds = none :=
  ⟨⟨okModelEx, 3, 2, some 7, none⟩, rfl,
    claim_C9 okModelEx (some 7) (some 9) none ⟨okModelEx, 3, 2, some 7, none⟩
      rfl⟩

/-- C10: for a tensor whose shape holds exactly one dimension with a positive
value, surrounded by any number of dimensions whose values are zero or
negative, `_tensor_size` ignores the non-positive dimensions and returns the
single positive dimension's value without raising. -/
theorem claim_C10 (t : Tensor) (l1 l2 : List Dim) (d : Dim) (a : Int)
    (hshape : t.type.tensor_type.shape.dim = l1 ++ d :: l2)
    (hd : d.dim_value = some a) (hpos : 0 < a)
    (hrest : ∀ d' ∈ l1 ++ l2, ∀ v, d'.dim_value = some v → v ≤ 0) :
    tensor_size t = .ok a := by
  have hnone : ∀ d' ∈ l1 ++ l2,
      (match d'.dim_value with
        | some v => if 0 < v then some v else none
        | none => none) = (none : Option Int) := by
    intro d' hd'
    cases hv : d'.dim_value with
    | none => rfl
    | some v =>
        have hle := hrest d' hd' v hv
        simp [hv, not_lt.mpr hle]
  apply tensor_size_ok_of_single
  unfold dim_values_of
  rw [hshape, List.filterMap_append, List.filterMap_cons]
  have h1 : l1.filterMap (fun d =>
      match d.dim_value with
      | some v => if 0 < v then some v else none
      | none => none) = [] :=
    List.filterMap_eq_nil_iff.mpr fun d' hd' => hnone d' (List.mem_append_left l2 hd')
  have h2 : l2.filterMap (fun d =>
      match d.dim_value with
      | some v => if 0 < v then some v else none
      | none => none) = [] :=
    List.filterMap_eq_nil_iff.mpr fun d' hd' => hnone d' (List.mem_append_right l1 hd')
  simp [h1, h2, hd, hpos]

theorem claim_C10_witness :
    tensor_size ⟨⟨⟨⟨[⟨some 0⟩, ⟨some 5⟩, ⟨some (-2)⟩]⟩⟩⟩⟩ = .ok 5 :=
  claim_C10 ⟨⟨⟨⟨[⟨some 0⟩, ⟨some 5⟩, ⟨some (-2)⟩]⟩⟩⟩⟩ [⟨some 0⟩] [⟨some (-2)⟩]
    ⟨some 5⟩ 5 rfl rfl (by decide)
    (by
      intro d' hd' v hv
      simp only [List.mem_append, List.mem_singleton] at hd'
      rcases hd' with h | h <;> (subst h; cases hv; decide))

/-- C3: a block set up with input indexes `["A", "B", "C"]` and output indexes
`[1, 4]` iterates its inputs and outputs in exactly that order; in general, for
any index collections given at setup, the block's inputs and outputs are
exactly those collections in the given order. -/
theorem claim_C3 {ι κ : Type} (b : OmltBlockData ι κ)
    (input_indexes : List ι) (output_indexes : List κ) :
    (b.setup_inputs_outputs input_indexes output_indexes).inputs
        = input_indexes ∧
    (b.setup_inputs_outputs input_indexes output_indexes).outputs
        = output_indexes ∧
    ((OmltBlockData.new : OmltBlockData String Nat).setup_inputs_outputs
        ["A", "B", "C"] [1, 4]).inputs = ["A", "B", "C"] ∧
    ((OmltBlockData.new : OmltBlockData String Nat).setup_inputs_outputs
        ["A", "B", "C"] [1, 4]).outputs = [1, 4] :=
  ⟨rfl, rfl, rfl, rfl⟩

/-- C5: attaching a formulation whose input index collection is empty fails
with the error naming that formulation and stating it has no inputs; a
formulation with inputs but an empty output index collection fails with the
error naming it and stating it has no outputs. -/
theorem claim_C5 {ι κ : Type} (b : OmltBlockData ι κ) (f : Formulation ι κ) :
    (f.input_indexes = [] →
      b.build_formulation f = .error (.noInputs f) ∧
      ∀ fr, ∃ s, (BlockError.noInputs f).message fr
        = s ++ fr f ++ " has no inputs.") ∧
    (f.input_indexes ≠ [] → f.output_indexes = [] →
      b.build_formulation f = .error (.noOutputs f) ∧
      ∀ fr, ∃ s, (BlockError.noOutputs f).message fr
        = s ++ fr f ++ " has no outputs.") := by
  constructor
  · intro hi
    refine ⟨?_, fun fr => ⟨_, rfl⟩⟩
    simp [OmltBlockData.build_formulation, hi]
  · intro hi ho
    rcases hipat : f.input_indexes with _ | ⟨x, xs⟩
    · exact absurd hipat hi
    · refine ⟨?_, fun fr => ⟨_, rfl⟩⟩
      simp [OmltBlockData.build_formulation, hipat, ho]

theorem claim_C5_witness :
    (OmltBlockData.new : OmltBlockData String Nat).build_formulation
        ⟨[], [1]⟩ = .error (.noInputs ⟨[], [1]⟩) ∧
    (OmltBlockData.new : OmltBlockData String Nat).build_formulation
        ⟨["A"], []⟩ = .error (.noOutputs ⟨["A"], []⟩) :=
  ⟨((claim_C5 OmltBlockData.new ⟨[], [1]⟩).1 rfl).1,
   ((claim_C5 OmltBlockData.new ⟨["A"], []⟩).2 (by simp) rfl).1⟩

/-- C6: attaching a formulation to a block that already has one fails with a
descriptive error naming the offending formulation being attached, and no
updated block is produced, so the block keeps its original formulation. -/
theorem claim_C6 {ι κ : Type} (b : OmltBlockData ι κ) (f0 f : Formulation ι κ)
    (h : b.formulation = some f0) :
    (∃ e, b.build_formulation f = .error e ∧ e.offendingFormulation = f) ∧
    ∀ b', b.build_formulation f ≠ .ok b' := by
  rcases hipat : f.input_indexes with _ | ⟨x, xs⟩
  · exact ⟨⟨.noInputs f, by simp [OmltBlockData.build_formulation, hipat], rfl⟩,
      fun b' => by simp [OmltBlockData.build_formulation, hipat]⟩
  · rcases hopat : f.output_indexes with _ | ⟨y, ys⟩
    · exact ⟨⟨.noOutputs f,
        by simp [OmltBlockData.build_formulation, hipat, hopat], rfl⟩,
        fun b' => by simp [OmltBlockData.build_formulation, hipat, hopat]⟩
    · exact ⟨⟨.alreadyAttached f,
        by simp [OmltBlockData.build_formulation, hipat, hopat, h], rfl⟩,
        fun b' => by simp [OmltBlockData.build_formulation, hipat, hopat, h]⟩

theorem claim_C6_witness :
    ∃ e, (⟨["A"], [1], some ⟨["A"], [1]⟩⟩ :
        OmltBlockData String Nat).build_formulation ⟨["B"], [2]⟩ = .error e ∧
      e.offendingFormulation = ⟨["B"], [2]⟩ :=
  (claim_C6 ⟨["A"], [1], some ⟨["A"], [1]⟩⟩ ⟨["A"], [1]⟩ ⟨["B"], [2]⟩ rfl).1

/-- C4: comparing an expression against an expression, a variable or a
constant with `==` (resp. `<=`) yields a constraint with sense `"=="` (resp.
`"<="`) whose left-hand side is the original expression itself, and whose
numeric evaluation under the current variable values is the difference of the
two sides (the left-hand side's own value when the right-hand side is a
constant). -/
theorem claim_C4 (e : OmltExpr) (r : ConstraintRhs) :
    (e.eqC r).sense = "==" ∧ (e.eqC r).lhs = e ∧
    (e.leC r).sense = "<=" ∧ (e.leC r).lhs = e ∧
    (∀ e2, (e.leC (.rexpr e2)).call = e.eval - e2.eval) ∧
    (∀ v, (e.leC (.rvar v)).call = e.eval - v.value) ∧
    (∀ k, (e.leC (.rconst k)).call = e.eval) ∧
    (∀ e2, (e.eqC (.rexpr e2)).call = e.eval - e2.eval) ∧
    (∀ v, (e.eqC (.rvar v)).call = e.eval - v.value) ∧
    (∀ k, (e.eqC (.rconst k)).call = e.eval) :=
  ⟨rfl, rfl, rfl, rfl, fun _ => rfl, fun _ => rfl, fun _ => rfl,
    fun _ => rfl, fun _ => rfl, fun _ => rfl⟩

/-- C7: every backing-language name other than `"pyomo"` and `"jump"` is
rejected at construction with the fixed error message enumerating the two
supported formats, for both the scalar and the indexed constraint variants. -/
theorem claim_C7 (lang : String) (h1 : lang ≠ "pyomo") (h2 : lang ≠ "jump") :
    makeOmltConstraintScalar lang = .error (langErrorMessage lang) ∧
    ∀ index_set, makeOmltConstraintIndexed index_set lang
      = .error (langErrorMessage lang) := by
  refine ⟨?_, fun index_set => ?_⟩ <;>
    simp [makeOmltConstraintScalar, makeOmltConstraintIndexed, parseLang,
      h1, h2]

theorem claim_C7_witness :
    makeOmltConstraintScalar "test" = .error (langErrorMessage "test") ∧
    makeOmltConstraintIndexed [0, 1, 2] "test"
      = .error (langErrorMessage "test") :=
  ⟨(claim_C7 "test" (by decide) (by decide)).1,
   (claim_C7 "test" (by decide) (by decide)).2 [0, 1, 2]⟩

/-- C8: reading or assigning an indexed constraint container at an index
outside its index set fails with a lookup error naming the missing index and
the valid index set (the error message interpolates both), and the failed
assignment produces no updated container, leaving the contents unchanged. -/
theorem claim_C8 (c : OmltConstraintIndexed) (idx : Int)
    (v : OmltConstraintScalarData) (h : idx ∉ c.index_set) :
    c.setItem idx v = .error (.missing idx c.index_set) ∧
    c.getItem idx = .error (.missing idx c.index_set) ∧
    (∀ c', c.setItem idx v ≠ .ok c') ∧
    ∃ s1 s2 s3, (IndexLookupError.missing idx c.index_set).message
      = s1 ++ toString idx ++ s2 ++ reprIntList c.index_set ++ s3 := by
  refine ⟨?_, ?_, ?_, ⟨_, _, _, rfl⟩⟩ <;>
    simp [OmltConstraintIndexed.setItem, OmltConstraintIndexed.getItem, h]

theorem claim_C8_witness :
    (⟨OmltLang.pyomo, [0, 1, 2], []⟩ : OmltConstraintIndexed).setItem 4
        ((OmltExpr.evar ⟨6⟩).geC (.rconst 0)) = .error (.missing 4 [0, 1, 2]) ∧
    (⟨OmltLang.pyomo, [0, 1, 2], []⟩ : OmltConstraintIndexed).getItem 4
      = .error (.missing 4 [0, 1, 2]) :=
  ⟨(claim_C8 ⟨OmltLang.pyomo, [0, 1, 2], []⟩ 4
      ((OmltExpr.evar ⟨6⟩).geC (.rconst 0)) (by decide)).1,
   (claim_C8 ⟨OmltLang.pyomo, [0, 1, 2], []⟩ 4
      ((OmltExpr.evar ⟨6⟩).geC (.rconst 0)) (by decide)).2.1⟩

end OMLT
